import Mathlib

/-! The two MongoDB bootstrap scripts of islandhop-backend.

The repository holds two mongo-shell scripts,
`src/pooling-service/init-mongo.js` and
`src/trip-planning-service/init-mongo.js`.  Each is a straight-line sequence
of shell statements (`db = db.getSiblingDB(..)`, `db.createUser(..)`,
`db.createCollection(..)`, `db.<coll>.createIndex(..)`,
`db.<coll>.insertMany(..)`, `print(..)`).

The scripts are transcribed statement by statement as lists of `Stmt`.  The
statements act on a model of the store they talk to:

* a target maps a database name to its users and collections;
* a collection holds its declared (secondary) indexes in creation order and
  its documents in insertion order.  The implicit `_id_` index and the
  driver-assigned `_id` field are not tracked: a fresh `_id` never collides;
* `createUser` raises when the user already exists on the current database;
* `createCollection` without options is create-if-absent, as on current
  servers (collection options are not tracked);
* `createIndex` is a no-op for an identical specification, raises on an index
  with the same key pattern and different options, raises when a unique index
  is built over documents that already share a key, and creates the
  collection when it is missing;
* the key of a document under an index is the tuple of its top-level field
  values, `null` for a missing field; dotted paths and the per-element keys
  of array fields are not modelled (the unique keys of the scripts are the
  string fields `tripId` and `userId`);
* `insertMany` is ordered: documents are appended one by one, the first one
  rejected by a unique index raises a duplicate-key error, documents before
  it stay inserted;
* an uncaught error ends the script; nothing is rolled back;
* each `new Date()` reads the clock; the three readings are script inputs.
-/

namespace IslandHop

/-! ## Documents -/

/-- A BSON-like value.  `num m k` is the number `m / 10^k`, which holds a
decimal literal exactly as the script writes it; `date ms` is a date as
milliseconds since the epoch. -/
inductive Value where
  | null
  | bool (b : Bool)
  | num (mantissa : Int) (scale : Nat)
  | str (s : String)
  | date (ms : Int)
  | arr (xs : List Value)
  | obj (fields : List (String × Value))

/-- A document: its top-level fields in the order they are written. -/
abbrev Doc := List (String × Value)

mutual
/-- Equality of values as the store compares them: numbers by their
numeric value, arrays element by element, objects field by field in order. -/
def Value.beq : Value → Value → Bool
  | .null, .null => true
  | .bool a, .bool b => a == b
  | .num a i, .num b j => a * 10 ^ j == b * 10 ^ i
  | .str a, .str b => a == b
  | .date a, .date b => a == b
  | .arr xs, .arr ys => Value.beqList xs ys
  | .obj fs, .obj gs => Value.beqFields fs gs
  | _, _ => false
/-- Equality of value lists, element by element. -/
def Value.beqList : List Value → List Value → Bool
  | [], [] => true
  | x :: xs, y :: ys => Value.beq x y && Value.beqList xs ys
  | _, _ => false
/-- Equality of field lists, field by field in order. -/
def Value.beqFields : List (String × Value) → List (String × Value) → Bool
  | [], [] => true
  | (k, x) :: xs, (l, y) :: ys => k == l && Value.beq x y && Value.beqFields xs ys
  | _, _ => false
end

/-! ## The store -/

/-- An index specification: the ordered key pattern (field, direction; `1` is
ascending, `-1` descending) and the `unique` option. -/
structure IndexSpec where
  key : List (String × Int)
  unique : Bool
deriving DecidableEq, Repr

/-- A role grant `{ role, db }`. -/
structure Role where
  role : String
  db : String
deriving DecidableEq, Repr

/-- The argument of `db.createUser`. -/
structure User where
  user : String
  pwd : String
  roles : List Role
deriving DecidableEq, Repr

/-- A collection: declared indexes in creation order, documents in insertion
order. -/
structure Collection where
  indexes : List IndexSpec
  docs : List Doc

/-- A collection that was just created. -/
def Collection.empty : Collection := ⟨[], []⟩

/-- A database: its users and its collections, by name. -/
structure Database where
  users : String → Option User
  colls : String → Option Collection

/-- A database nobody has written to. -/
def Database.empty : Database := ⟨fun _ => none, fun _ => none⟩

/-- The target deployment: every database by name. -/
abbrev Target := String → Database

/-- The target in which nothing exists. -/
def Target.empty : Target := fun _ => Database.empty

/-- Errors raised by the store. `duplicateKey` is the E11000 write error a
unique index raises (the specification calls it `ValidationError`),
`indexConflict` the error for an index with the same key pattern and other
options, `userExists` the error of `createUser` on an existing user. -/
inductive MongoErr where
  | userExists
  | indexConflict
  | duplicateKey
deriving DecidableEq, Repr

/-- The collection of that name, or a fresh one when it does not exist yet. -/
def Database.coll (d : Database) (name : String) : Collection :=
  (d.colls name).getD Collection.empty

/-- Store a collection under a name. -/
def Database.setColl (d : Database) (name : String) (c : Collection) : Database :=
  { d with colls := fun n => if n = name then some c else d.colls n }

/-- The key an index extracts from a document: the value of each field of the
key pattern, `null` for a missing field. -/
def indexKey (key : List (String × Int)) (doc : Doc) : List Value :=
  key.map fun f => (doc.lookup f.1).getD Value.null

/-- Some document of the list has this key under the key pattern. -/
def keyTaken (key : List (String × Int)) (docs : List Doc) (k : List Value) : Bool :=
  docs.any fun d => Value.beqList (indexKey key d) k

/-- A unique index of the collection rejects the document. -/
def violates (c : Collection) (doc : Doc) : Bool :=
  c.indexes.any fun ix => ix.unique && keyTaken ix.key c.docs (indexKey ix.key doc)

/-- No two documents of the list share a key under the key pattern. -/
def distinctKeys (key : List (String × Int)) : List Doc → Bool
  | [] => true
  | d :: ds => !keyTaken key ds (indexKey key d) && distinctKeys key ds

/-- The effect of `db.createUser(u)`. -/
def Database.createUser (d : Database) (u : User) : Database × Option MongoErr :=
  match d.users u.user with
  | some _ => (d, some .userExists)
  | none => ({ d with users := fun n => if n = u.user then some u else d.users n }, none)

/-- The effect of `db.createCollection(name)`. -/
def Database.createCollection (d : Database) (name : String) : Database × Option MongoErr :=
  match d.colls name with
  | some _ => (d, none)
  | none => (d.setColl name Collection.empty, none)

/-- The effect of `db.<name>.createIndex(key, { unique })`. -/
def Database.createIndex (d : Database) (name : String) (ix : IndexSpec) :
    Database × Option MongoErr :=
  let c := d.coll name
  if ix ∈ c.indexes then (d, none)
  else if c.indexes.any (fun j => j.key == ix.key) then (d, some .indexConflict)
  else if ix.unique && !distinctKeys ix.key c.docs then (d, some .duplicateKey)
  else (d.setColl name { c with indexes := c.indexes ++ [ix] }, none)

/-- The effect of `db.<name>.insertMany(docs)` (ordered). The scripts never
pass an empty batch; here it does nothing. -/
def Database.insertMany (d : Database) (name : String) : List Doc → Database × Option MongoErr
  | [] => (d, none)
  | doc :: rest =>
    if violates (d.coll name) doc then (d, some .duplicateKey)
    else
      (d.setColl name { d.coll name with docs := (d.coll name).docs ++ [doc] }).insertMany name rest

/-! ## The shell -/

/-- The state of a shell session: the variable `db`, the target it is
connected to, and what has been printed. -/
structure Shell where
  db : String
  target : Target
  out : List String

/-- Replace the current database of the session. -/
def Shell.setDatabase (sh : Shell) (d : Database) : Shell :=
  { sh with target := fun n => if n = sh.db then d else sh.target n }

/-- A statement of the scripts. -/
inductive Stmt where
  | getSiblingDB (name : String)
  | createUser (u : User)
  | createCollection (name : String)
  | createIndex (coll : String) (key : List (String × Int)) (unique : Bool)
  | insertMany (coll : String) (docs : List Doc)
  | print (msg : String)

/-- Run an operation on the current database of the session. -/
def Shell.onDb (sh : Shell) (op : Database → Database × Option MongoErr) :
    Shell × Option MongoErr :=
  (sh.setDatabase (op (sh.target sh.db)).1, (op (sh.target sh.db)).2)

/-- Execute one statement: the state after it and the error it raised. -/
def exec : Stmt → Shell → Shell × Option MongoErr
  | .getSiblingDB name, sh => ({ sh with db := name }, none)
  | .createUser u, sh => sh.onDb fun d => d.createUser u
  | .createCollection name, sh => sh.onDb fun d => d.createCollection name
  | .createIndex coll key unique, sh => sh.onDb fun d => d.createIndex coll ⟨key, unique⟩
  | .insertMany coll docs, sh => sh.onDb fun d => d.insertMany coll docs
  | .print msg, sh => ({ sh with out := sh.out ++ [msg] }, none)

/-- Execute a script: statements run in order, the first error ends the run. -/
def runScript : List Stmt → Shell → Shell × Option MongoErr
  | [], sh => (sh, none)
  | st :: rest, sh =>
    match exec st sh with
    | (sh', none) => runScript rest sh'
    | (sh', some e) => (sh', some e)

/-! ## `src/pooling-service/init-mongo.js` -/

namespace PoolingService

/-- The script, statement by statement. -/
def initMongo : List Stmt :=
  [ .getSiblingDB "pooling",
    .createCollection "tripPools",
    .createIndex "tripPools" [("createdAt", 1)] false,
    .createIndex "tripPools" [("status", 1)] false,
    .createIndex "tripPools" [("public", 1)] false,
    .createIndex "tripPools" [("baseCity", 1)] false,
    .createIndex "tripPools" [("startDate", 1)] false,
    .createIndex "tripPools" [("endDate", 1)] false,
    .createIndex "tripPools" [("members.userId", 1)] false,
    .createIndex "tripPools"
      [("baseCity", 1), ("startDate", 1), ("endDate", 1), ("status", 1), ("public", 1)] false,
    .print "MongoDB initialized for pooling service" ]

end PoolingService

/-! ## `src/trip-planning-service/init-mongo.js` -/

namespace TripPlanningService

/-- The three clock readings of a run: the `new Date()` of `createdAt`, of
`updatedAt` and of `lastUpdated`, in milliseconds. -/
structure Clock where
  createdAt : Int
  updatedAt : Int
  lastUpdated : Int

/-- The argument of `db.createUser`. -/
def appUser : User :=
  { user := "tripplanner", pwd := "tripplanner123",
    roles := [{ role := "readWrite", db := "islandhop_trips" }] }

/-- The sample trip. -/
def sampleTrip (now : Clock) : Doc :=
  [ ("tripId", .str "sample_trip_001"),
    ("userId", .str "user@example.com"),
    ("tripName", .str "Cultural Heritage Tour of Sri Lanka"),
    ("startDate", .date 1754006400000),
    ("endDate", .date 1754352000000),
    ("arrivalTime", .str "14:30"),
    ("baseCity", .str "Colombo"),
    ("multiCity", .bool true),
    ("categories", .arr [.str "Culture", .str "Nature"]),
    ("pacing", .str "NORMAL"),
    ("status", .str "PLANNING"),
    ("places", .arr
      [ .obj
          [ ("placeId", .str "place_001"),
            ("name", .str "Gangaramaya Temple"),
            ("city", .str "Colombo"),
            ("latitude", .num 69162 4),
            ("longitude", .num 798562 4),
            ("description", .str "Famous Buddhist temple in heart of Colombo"),
            ("categories", .arr [.str "Culture", .str "Religion"]),
            ("type", .str "ATTRACTION"),
            ("estimatedVisitDurationMinutes", .num 90 0),
            ("dayNumber", .num 1 0),
            ("orderInDay", .num 1 0),
            ("rating", .num 43 1),
            ("reviewCount", .num 1250 0),
            ("priceLevel", .str "FREE"),
            ("userAdded", .bool false),
            ("confirmed", .bool true) ],
        .obj
          [ ("placeId", .str "place_002"),
            ("name", .str "National Museum of Colombo"),
            ("city", .str "Colombo"),
            ("latitude", .num 69094 4),
            ("longitude", .num 798606 4),
            ("description", .str "Premier museum showcasing Sri Lankan history"),
            ("categories", .arr [.str "Culture", .str "History"]),
            ("type", .str "ATTRACTION"),
            ("estimatedVisitDurationMinutes", .num 120 0),
            ("dayNumber", .num 1 0),
            ("orderInDay", .num 2 0),
            ("rating", .num 41 1),
            ("reviewCount", .num 890 0),
            ("priceLevel", .str "BUDGET"),
            ("userAdded", .bool false),
            ("confirmed", .bool true) ] ]),
    ("dayPlans", .arr []),
    ("statistics", .obj
      [ ("totalDays", .num 5 0),
        ("totalPlaces", .num 2 0),
        ("totalDistanceKm", .num 25 1),
        ("totalTravelTimeMinutes", .num 15 0),
        ("totalVisitTimeMinutes", .num 210 0),
        ("predominantCategory", .str "Culture"),
        ("citiesVisited", .num 1 0) ]),
    ("preferences", .obj
      [ ("maxDailyTravelHours", .num 8 0),
        ("bufferTimeMinutes", .num 30 0),
        ("maxAttractionsPerDay", .num 4 0) ]),
    ("excludedAttractions", .arr []),
    ("createdAt", .date now.createdAt),
    ("updatedAt", .date now.updatedAt) ]

/-- The sample user-preference record. -/
def samplePreferences (now : Clock) : Doc :=
  [ ("userId", .str "user@example.com"),
    ("categoryPreferences", .obj
      [ ("Culture", .num 8 0),
        ("Nature", .num 6 0),
        ("Adventure", .num 3 0),
        ("Leisure", .num 5 0) ]),
    ("locationPreferences", .obj
      [ ("Colombo", .num 9 1),
        ("Kandy", .num 85 2),
        ("Galle", .num 7 1) ]),
    ("visitedAttractions", .obj
      [ ("place_001", .num 2 0),
        ("place_002", .num 1 0) ]),
    ("averageDailyBudget", .num 750 1),
    ("averageAttractionsPerDay", .num 3 0),
    ("preferredTravelModes", .arr [.str "TAXI", .str "BUS", .str "WALKING"]),
    ("preferredPacing", .str "NORMAL"),
    ("similarUsers", .arr []),
    ("attractionRatings", .obj
      [ ("place_001", .num 85 2),
        ("place_002", .num 75 2) ]),
    ("lastUpdated", .date now.lastUpdated) ]

/-- The script, statement by statement. -/
def initMongo (now : Clock) : List Stmt :=
  [ .getSiblingDB "islandhop_trips",
    .createUser appUser,
    .print "Creating trips collection...",
    .createCollection "trips",
    .createIndex "trips" [("userId", 1)] false,
    .createIndex "trips" [("tripId", 1), ("userId", 1)] true,
    .createIndex "trips" [("categories", 1)] false,
    .createIndex "trips" [("pacing", 1)] false,
    .createIndex "trips" [("startDate", 1)] false,
    .createIndex "trips" [("status", 1)] false,
    .createIndex "trips" [("baseCity", 1)] false,
    .print "Creating user_preferences collection...",
    .createCollection "user_preferences",
    .createIndex "user_preferences" [("userId", 1)] true,
    .createIndex "user_preferences" [("similarUsers", 1)] false,
    .print "Inserting sample trip data...",
    .insertMany "trips" [sampleTrip now],
    .print "Inserting sample user preferences...",
    .insertMany "user_preferences" [samplePreferences now],
    .print "MongoDB initialization completed successfully!",
    .print "Database: islandhop_trips",
    .print "Collections created: trips, user_preferences",
    .print "Sample data inserted for testing" ]

end TripPlanningService

/-! ## Statements as database transformers -/

/-- What a statement does to the database the variable `db` points at. -/
def dbStep : Stmt → Database → Database × Option MongoErr
  | .getSiblingDB _, d => (d, none)
  | .createUser u, d => d.createUser u
  | .createCollection name, d => d.createCollection name
  | .createIndex coll key unique, d => d.createIndex coll ⟨key, unique⟩
  | .insertMany coll docs, d => d.insertMany coll docs
  | .print _, d => (d, none)

/-- A statement sequence as a transformer of one database. -/
def runDb : List Stmt → Database → Database × Option MongoErr
  | [], d => (d, none)
  | st :: rest, d =>
    match dbStep st d with
    | (d', none) => runDb rest d'
    | (d', some e) => (d', some e)

/-- The statement reassigns the variable `db`. -/
def Stmt.isSwitch : Stmt → Bool
  | .getSiblingDB _ => true
  | _ => false

/-- The statement is a `createUser`. -/
def Stmt.isCreateUser : Stmt → Bool
  | .createUser _ => true
  | _ => false

/-- The statement inserts into the collection `c`. -/
def Stmt.insertsInto (c : String) : Stmt → Bool
  | .insertMany c' _ => c' == c
  | _ => false

/-- The statement writes at most one document. -/
def Stmt.singleWrite : Stmt → Bool
  | .insertMany _ docs => docs.length ≤ 1
  | _ => true

/-- The statement declares a collection or an index, or prints. -/
def Stmt.isDecl : Stmt → Bool
  | .createCollection _ => true
  | .createIndex _ _ _ => true
  | .print _ => true
  | _ => false

/-- What a declaration asks for is already there: the collection of a
`createCollection` exists, the index of a `createIndex` is declared. -/
def Stmt.satisfied (d : Database) : Stmt → Prop
  | .createCollection name => (d.colls name).isSome = true
  | .createIndex coll key unique => (⟨key, unique⟩ : IndexSpec) ∈ (d.coll coll).indexes
  | .print _ => True
  | _ => False

/-! ## Sample states -/

/-- A clock whose three readings are the epoch. -/
def TripPlanningService.epoch : TripPlanningService.Clock := ⟨0, 0, 0⟩

/-- A target in which user `tripplanner` already exists on `islandhop_trips`,
with another password and no role, and nothing else exists. -/
def targetWithUser : Target := fun n =>
  if n = "islandhop_trips" then
    ⟨fun u => if u = "tripplanner" then some ⟨"tripplanner", "rotated-secret", []⟩ else none,
      fun _ => none⟩
  else Database.empty

/-- A target in which `islandhop_trips.trips` holds one document of another
trip and nothing else exists. -/
def targetWithOtherTrip : Target := fun n =>
  if n = "islandhop_trips" then
    ⟨fun _ => none,
      fun c => if c = "trips" then
        some ⟨[], [[("tripId", .str "trip_042"), ("userId", .str "user@example.com")]]⟩
      else none⟩
  else Database.empty

/-- A target in which `trips` and `user_preferences` of `islandhop_trips`
carry their unique index and one document with the key of the sample data. -/
def targetWithSampleKeys : Target := fun n =>
  if n = "islandhop_trips" then
    ⟨fun _ => none,
      fun c =>
        if c = "trips" then
          some ⟨[⟨[("tripId", 1), ("userId", 1)], true⟩],
            [[("tripId", .str "sample_trip_001"), ("userId", .str "user@example.com")]]⟩
        else if c = "user_preferences" then
          some ⟨[⟨[("userId", 1)], true⟩], [[("userId", .str "user@example.com")]]⟩
        else none⟩
  else Database.empty

/-! ## Facts about the store operations -/

theorem Database.coll_setColl (d : Database) (name n : String) (c : Collection) :
    (d.setColl name c).coll n = if n = name then c else d.coll n := by
  unfold Database.coll Database.setColl
  by_cases h : n = name <;> simp [h]

theorem Database.colls_setColl (d : Database) (name n : String) (c : Collection) :
    (d.setColl name c).colls n = if n = name then some c else d.colls n := rfl

theorem Database.createUser_colls (d : Database) (u : User) :
    (d.createUser u).1.colls = d.colls := by
  unfold Database.createUser
  cases d.users u.user <;> rfl

theorem Database.createUser_fail (d : Database) (u : User) (e : MongoErr)
    (h : (d.createUser u).2 = some e) : (d.createUser u).1 = d := by
  unfold Database.createUser at h ⊢
  cases hu : d.users u.user with
  | none => rw [hu] at h; simp at h
  | some v => rfl

theorem Database.createCollection_ok (d : Database) (name : String) :
    (d.createCollection name).2 = none := by
  unfold Database.createCollection
  cases d.colls name <;> rfl

theorem Database.createCollection_users (d : Database) (name : String) :
    (d.createCollection name).1.users = d.users := by
  unfold Database.createCollection
  cases d.colls name <;> rfl

theorem Database.createCollection_coll (d : Database) (name n : String) :
    (d.createCollection name).1.coll n = d.coll n := by
  unfold Database.createCollection
  cases h : d.colls name with
  | some c => rfl
  | none =>
    show (d.setColl name Collection.empty).coll n = d.coll n
    rw [Database.coll_setColl]
    by_cases hn : n = name
    · subst hn; simp [Database.coll, h]
    · simp [hn]

theorem Database.createCollection_exists (d : Database) (name : String) :
    ((d.createCollection name).1.colls name).isSome = true := by
  unfold Database.createCollection
  cases h : d.colls name with
  | some c => simp [h]
  | none => simp [Database.setColl]

theorem Database.createCollection_mono (d : Database) (name n : String)
    (h : (d.colls n).isSome = true) : ((d.createCollection name).1.colls n).isSome = true := by
  unfold Database.createCollection
  cases hc : d.colls name with
  | some c => exact h
  | none =>
    show ((d.setColl name Collection.empty).colls n).isSome = true
    rw [Database.colls_setColl]
    by_cases hn : n = name <;> simp [hn, h]

theorem Database.createCollection_noop (d : Database) (name : String)
    (h : (d.colls name).isSome = true) : d.createCollection name = (d, none) := by
  unfold Database.createCollection
  cases hc : d.colls name with
  | some c => rfl
  | none => rw [hc] at h; simp at h

theorem Database.createIndex_cases (d : Database) (name : String) (ix : IndexSpec) :
    (d.createIndex name ix = (d, none) ∧ ix ∈ (d.coll name).indexes) ∨
    (d.createIndex name ix = (d, some .indexConflict) ∧ ix ∉ (d.coll name).indexes) ∨
    (d.createIndex name ix = (d, some .duplicateKey) ∧ ix ∉ (d.coll name).indexes) ∨
    (d.createIndex name ix =
      (d.setColl name { d.coll name with indexes := (d.coll name).indexes ++ [ix] }, none) ∧
      ix ∉ (d.coll name).indexes) := by
  unfold Database.createIndex
  by_cases h1 : ix ∈ (d.coll name).indexes
  · left; simp [h1]
  · by_cases h2 : (d.coll name).indexes.any (fun j => j.key == ix.key) = true
    · right; left; simp only [h1, if_false, h2, if_true, not_false_eq_true, and_self]
    · by_cases h3 : (ix.unique && !distinctKeys ix.key (d.coll name).docs) = true
      · right; right; left
        simp only [h1, if_false, h2, h3, if_true, not_false_eq_true, and_self]
        simp
      · right; right; right
        simp only [h1, if_false, h2, h3, not_false_eq_true, and_self]
        simp

theorem Database.createIndex_users (d : Database) (name : String) (ix : IndexSpec) :
    (d.createIndex name ix).1.users = d.users := by
  rcases Database.createIndex_cases d name ix with h | h | h | h <;> rw [h.1]
  rfl

theorem Database.createIndex_docs (d : Database) (name n : String) (ix : IndexSpec) :
    ((d.createIndex name ix).1.coll n).docs = (d.coll n).docs := by
  rcases Database.createIndex_cases d name ix with h | h | h | h <;> rw [h.1]
  show ((d.setColl name _).coll n).docs = _
  rw [Database.coll_setColl]
  by_cases hn : n = name
  · subst hn; simp
  · simp [hn]

theorem Database.createIndex_mono (d : Database) (name n : String) (ix jx : IndexSpec)
    (hj : jx ∈ (d.coll n).indexes) : jx ∈ ((d.createIndex name ix).1.coll n).indexes := by
  rcases Database.createIndex_cases d name ix with h | h | h | h <;> rw [h.1] <;> try exact hj
  show jx ∈ ((d.setColl name _).coll n).indexes
  rw [Database.coll_setColl]
  by_cases hn : n = name
  · subst hn; simp [hj]
  · simp [hn, hj]

theorem Database.createIndex_declared (d : Database) (name : String) (ix : IndexSpec)
    (hok : (d.createIndex name ix).2 = none) :
    ix ∈ ((d.createIndex name ix).1.coll name).indexes := by
  rcases Database.createIndex_cases d name ix with h | h | h | h
  · rw [h.1]; exact h.2
  · rw [h.1] at hok; simp at hok
  · rw [h.1] at hok; simp at hok
  · rw [h.1]
    show ix ∈ ((d.setColl name _).coll name).indexes
    rw [Database.coll_setColl]
    simp

theorem Database.createIndex_fail (d : Database) (name : String) (ix : IndexSpec) (e : MongoErr)
    (hf : (d.createIndex name ix).2 = some e) : (d.createIndex name ix).1 = d := by
  rcases Database.createIndex_cases d name ix with h | h | h | h
  · rw [h.1]
  · rw [h.1]
  · rw [h.1]
  · rw [h.1] at hf; simp at hf

theorem Database.createIndex_noop (d : Database) (name : String) (ix : IndexSpec)
    (h : ix ∈ (d.coll name).indexes) : d.createIndex name ix = (d, none) := by
  rcases Database.createIndex_cases d name ix with h' | h' | h' | h'
  · exact h'.1
  · exact absurd h h'.2
  · exact absurd h h'.2
  · exact absurd h h'.2

theorem Database.createIndex_exists (d : Database) (name n : String) (ix : IndexSpec)
    (hn : (d.colls n).isSome = true) : ((d.createIndex name ix).1.colls n).isSome = true := by
  rcases Database.createIndex_cases d name ix with h | h | h | h <;> rw [h.1] <;> try exact hn
  show ((d.setColl name _).colls n).isSome = true
  rw [Database.colls_setColl]
  by_cases hn' : n = name <;> simp [hn', hn]

theorem Database.insertMany_cons_rejected (d : Database) (name : String) (doc : Doc)
    (rest : List Doc) (hv : violates (d.coll name) doc = true) :
    d.insertMany name (doc :: rest) = (d, some .duplicateKey) := by
  rw [Database.insertMany, if_pos hv]

theorem Database.insertMany_cons_accepted (d : Database) (name : String) (doc : Doc)
    (rest : List Doc) (hv : violates (d.coll name) doc = false) :
    d.insertMany name (doc :: rest) =
      (d.setColl name { d.coll name with docs := (d.coll name).docs ++ [doc] }).insertMany
        name rest := by
  rw [Database.insertMany, if_neg (by simp [hv])]

theorem Database.insertMany_users (d : Database) (name : String) (docs : List Doc) :
    (d.insertMany name docs).1.users = d.users := by
  induction docs generalizing d with
  | nil => rfl
  | cons doc rest ih =>
    cases hv : violates (d.coll name) doc with
    | true => rw [Database.insertMany_cons_rejected d name doc rest hv]
    | false => rw [Database.insertMany_cons_accepted d name doc rest hv, ih]; rfl

theorem Database.insertMany_indexes (d : Database) (name n : String) (docs : List Doc) :
    ((d.insertMany name docs).1.coll n).indexes = (d.coll n).indexes := by
  induction docs generalizing d with
  | nil => rfl
  | cons doc rest ih =>
    cases hv : violates (d.coll name) doc with
    | true => rw [Database.insertMany_cons_rejected d name doc rest hv]
    | false =>
      rw [Database.insertMany_cons_accepted d name doc rest hv, ih, Database.coll_setColl]
      by_cases hn : n = name
      · subst hn; simp
      · simp [hn]

theorem Database.insertMany_docs_other (d : Database) (name n : String) (docs : List Doc)
    (hn : n ≠ name) : ((d.insertMany name docs).1.coll n).docs = (d.coll n).docs := by
  induction docs generalizing d with
  | nil => rfl
  | cons doc rest ih =>
    cases hv : violates (d.coll name) doc with
    | true => rw [Database.insertMany_cons_rejected d name doc rest hv]
    | false =>
      rw [Database.insertMany_cons_accepted d name doc rest hv, ih, Database.coll_setColl]
      simp [hn]

theorem Database.insertMany_exists (d : Database) (name n : String) (docs : List Doc)
    (h : (d.colls n).isSome = true) : ((d.insertMany name docs).1.colls n).isSome = true := by
  induction docs generalizing d with
  | nil => exact h
  | cons doc rest ih =>
    cases hv : violates (d.coll name) doc with
    | true => rw [Database.insertMany_cons_rejected d name doc rest hv]; exact h
    | false =>
      rw [Database.insertMany_cons_accepted d name doc rest hv]
      apply ih
      rw [Database.colls_setColl]
      by_cases hn : n = name <;> simp [hn, h]

theorem Database.insertMany_rejected (d : Database) (name : String) (doc : Doc)
    (hv : violates (d.coll name) doc = true) :
    d.insertMany name [doc] = (d, some .duplicateKey) :=
  Database.insertMany_cons_rejected d name doc [] hv

theorem Database.insertMany_accepted (d : Database) (name : String) (doc : Doc)
    (hv : violates (d.coll name) doc = false) :
    d.insertMany name [doc] =
      (d.setColl name { d.coll name with docs := (d.coll name).docs ++ [doc] }, none) := by
  rw [Database.insertMany_cons_accepted d name doc [] hv]; rfl

theorem Database.insertMany_single_fail (d : Database) (name : String) (doc : Doc) (e : MongoErr)
    (h : (d.insertMany name [doc]).2 = some e) : (d.insertMany name [doc]).1 = d := by
  cases hv : violates (d.coll name) doc with
  | true => rw [Database.insertMany_rejected d name doc hv]
  | false => rw [Database.insertMany_accepted d name doc hv] at h; simp at h

/-! ## Facts about single statements -/

theorem dbStep_users (st : Stmt) (d : Database) (h : st.isCreateUser = false) :
    (dbStep st d).1.users = d.users := by
  cases st with
  | getSiblingDB n => rfl
  | createUser u => simp [Stmt.isCreateUser] at h
  | createCollection n => exact Database.createCollection_users d n
  | createIndex c k u => exact Database.createIndex_users d c _
  | insertMany c docs => exact Database.insertMany_users d c docs
  | print m => rfl

theorem dbStep_docs (st : Stmt) (d : Database) (c : String) (h : st.insertsInto c = false) :
    ((dbStep st d).1.coll c).docs = (d.coll c).docs := by
  cases st with
  | getSiblingDB n => rfl
  | createUser u =>
    show (Database.coll (d.createUser u).1 c).docs = _
    unfold Database.coll
    rw [Database.createUser_colls]
  | createCollection n =>
    show (Database.coll (d.createCollection n).1 c).docs = _
    rw [Database.createCollection_coll]
  | createIndex c' k u => exact Database.createIndex_docs d c' c _
  | insertMany c' docs =>
    have hc : c ≠ c' := by
      intro hcc
      simp [Stmt.insertsInto, hcc] at h
    exact Database.insertMany_docs_other d c' c docs hc
  | print m => rfl

theorem dbStep_index_mono (st : Stmt) (d : Database) (c : String) (ix : IndexSpec)
    (h : ix ∈ (d.coll c).indexes) : ix ∈ ((dbStep st d).1.coll c).indexes := by
  cases st with
  | getSiblingDB n => exact h
  | createUser u =>
    show ix ∈ (Database.coll (d.createUser u).1 c).indexes
    unfold Database.coll
    rw [Database.createUser_colls]
    exact h
  | createCollection n =>
    show ix ∈ (Database.coll (d.createCollection n).1 c).indexes
    rw [Database.createCollection_coll]
    exact h
  | createIndex c' k u => exact Database.createIndex_mono d c' c _ ix h
  | insertMany c' docs =>
    show ix ∈ (Database.coll (d.insertMany c' docs).1 c).indexes
    rw [Database.insertMany_indexes]
    exact h
  | print m => exact h

theorem dbStep_exists_mono (st : Stmt) (d : Database) (c : String)
    (h : (d.colls c).isSome = true) : (((dbStep st d).1).colls c).isSome = true := by
  cases st with
  | getSiblingDB n => exact h
  | createUser u =>
    show ((d.createUser u).1.colls c).isSome = true
    rw [Database.createUser_colls]
    exact h
  | createCollection n => exact Database.createCollection_mono d n c h
  | createIndex c' k u => exact Database.createIndex_exists d c' c _ h
  | insertMany c' docs => exact Database.insertMany_exists d c' c docs h
  | print m => exact h

theorem dbStep_fail (st : Stmt) (d : Database) (e : MongoErr) (hs : st.singleWrite = true)
    (h : (dbStep st d).2 = some e) : (dbStep st d).1 = d := by
  cases st with
  | getSiblingDB n => rfl
  | createUser u => exact Database.createUser_fail d u e h
  | createCollection n =>
    have := Database.createCollection_ok d n
    simp [dbStep, this] at h
  | createIndex c k u => exact Database.createIndex_fail d c _ e h
  | insertMany c docs =>
    match docs, hs, h with
    | [], _, _ => rfl
    | [doc], _, h => exact Database.insertMany_single_fail d c doc e h
    | _ :: _ :: _, hs, _ => simp [Stmt.singleWrite] at hs
  | print m => rfl

theorem dbStep_satisfied_mono (st st' : Stmt) (d : Database) (h : st'.satisfied d) :
    st'.satisfied (dbStep st d).1 := by
  cases st' with
  | getSiblingDB n => exact h
  | createUser u => exact h
  | createCollection n => exact dbStep_exists_mono st d n h
  | createIndex c k u => exact dbStep_index_mono st d c _ h
  | insertMany c docs => exact h
  | print m => trivial

theorem dbStep_satisfied (st : Stmt) (d : Database) (hok : (dbStep st d).2 = none)
    (hdecl : st.isDecl = true) : st.satisfied (dbStep st d).1 := by
  cases st with
  | getSiblingDB n => simp [Stmt.isDecl] at hdecl
  | createUser u => simp [Stmt.isDecl] at hdecl
  | createCollection n => exact Database.createCollection_exists d n
  | createIndex c k u => exact Database.createIndex_declared d c _ hok
  | insertMany c docs => simp [Stmt.isDecl] at hdecl
  | print m => trivial

theorem dbStep_noop (st : Stmt) (d : Database) (h : st.satisfied d) : dbStep st d = (d, none) := by
  cases st with
  | getSiblingDB n => rfl
  | createUser u => exact absurd h id
  | createCollection n => exact Database.createCollection_noop d n h
  | createIndex c k u => exact Database.createIndex_noop d c _ h
  | insertMany c docs => exact absurd h id
  | print m => rfl

/-! ## Facts about statement sequences -/

theorem runDb_cons_ok (st : Stmt) (rest : List Stmt) (d : Database)
    (h : (dbStep st d).2 = none) : runDb (st :: rest) d = runDb rest (dbStep st d).1 := by
  rw [runDb]
  rcases hs : dbStep st d with ⟨d', oe⟩
  rw [hs] at h
  simp only at h
  subst h
  rfl

theorem runDb_cons_fail (st : Stmt) (rest : List Stmt) (d : Database) (e : MongoErr)
    (h : (dbStep st d).2 = some e) : runDb (st :: rest) d = ((dbStep st d).1, some e) := by
  rw [runDb]
  rcases hs : dbStep st d with ⟨d', oe⟩
  rw [hs] at h
  simp only at h
  subst h
  rfl

theorem runDb_append_ok (a b : List Stmt) (d : Database) (h : (runDb a d).2 = none) :
    runDb (a ++ b) d = runDb b (runDb a d).1 := by
  induction a generalizing d with
  | nil => rfl
  | cons st rest ih =>
    cases hs : (dbStep st d).2 with
    | none =>
      rw [List.cons_append, runDb_cons_ok st _ d hs]
      rw [runDb_cons_ok st rest d hs] at h ⊢
      exact ih _ h
    | some e =>
      rw [runDb_cons_fail st rest d e hs] at h
      simp at h

theorem runDb_append_fail (a b : List Stmt) (d : Database) (e : MongoErr)
    (h : (runDb a d).2 = some e) : runDb (a ++ b) d = runDb a d := by
  induction a generalizing d with
  | nil => simp [runDb] at h
  | cons st rest ih =>
    cases hs : (dbStep st d).2 with
    | none =>
      rw [List.cons_append, runDb_cons_ok st _ d hs]
      rw [runDb_cons_ok st rest d hs] at h ⊢
      exact ih _ h
    | some e' =>
      rw [List.cons_append, runDb_cons_fail st _ d e' hs, runDb_cons_fail st rest d e' hs]

/-- A property every statement keeps is kept by the run, wherever it ends. -/
theorem runDb_invariant (P : Database → Prop) (ss : List Stmt)
    (hstep : ∀ st ∈ ss, ∀ d, P d → P (dbStep st d).1) (d : Database) (h : P d) :
    P (runDb ss d).1 := by
  induction ss generalizing d with
  | nil => exact h
  | cons st rest ih =>
    have h1 : P (dbStep st d).1 := hstep st (List.mem_cons_self _ _) d h
    cases hs : (dbStep st d).2 with
    | none =>
      rw [runDb_cons_ok st rest d hs]
      exact ih (fun st' hm => hstep st' (List.mem_cons_of_mem _ hm)) _ h1
    | some e =>
      rw [runDb_cons_fail st rest d e hs]
      exact h1

theorem runDb_users (ss : List Stmt) (d : Database)
    (h : ∀ st ∈ ss, st.isCreateUser = false) : (runDb ss d).1.users = d.users :=
  runDb_invariant (fun d' => d'.users = d.users) ss
    (fun st hm d' hd => (dbStep_users st d' (h st hm)).trans hd) d rfl

theorem runDb_docs (ss : List Stmt) (d : Database) (c : String)
    (h : ∀ st ∈ ss, st.insertsInto c = false) :
    ((runDb ss d).1.coll c).docs = (d.coll c).docs :=
  runDb_invariant (fun d' => (d'.coll c).docs = (d.coll c).docs) ss
    (fun st hm d' hd => (dbStep_docs st d' c (h st hm)).trans hd) d rfl

theorem runDb_index_mono (ss : List Stmt) (d : Database) (c : String) (ix : IndexSpec)
    (h : ix ∈ (d.coll c).indexes) : ix ∈ ((runDb ss d).1.coll c).indexes :=
  runDb_invariant (fun d' => ix ∈ (d'.coll c).indexes) ss
    (fun st _ d' hd => dbStep_index_mono st d' c ix hd) d h

theorem runDb_satisfied_mono (ss : List Stmt) (d : Database) (st' : Stmt)
    (h : st'.satisfied d) : st'.satisfied (runDb ss d).1 :=
  runDb_invariant (fun d' => st'.satisfied d') ss
    (fun st _ d' hd => dbStep_satisfied_mono st st' d' hd) d h

/-- After a run without error, what each declaration asked for is there. -/
theorem runDb_success_satisfied (ss : List Stmt) (d : Database)
    (hdecl : ∀ st ∈ ss, st.isDecl = true)
    (hok : (runDb ss d).2 = none) : ∀ st ∈ ss, st.satisfied (runDb ss d).1 := by
  induction ss generalizing d with
  | nil => intro st hm; simp at hm
  | cons s rest ih =>
    cases hs : (dbStep s d).2 with
    | some e => rw [runDb_cons_fail s rest d e hs] at hok; simp at hok
    | none =>
      rw [runDb_cons_ok s rest d hs] at hok ⊢
      intro st hm
      rcases List.mem_cons.mp hm with h | h
      · subst h
        exact runDb_satisfied_mono rest _ st
          (dbStep_satisfied st d hs (hdecl st (List.mem_cons_self _ _)))
      · exact ih _ (fun st' hm' => hdecl st' (List.mem_cons_of_mem _ hm')) hok st h

/-- A run whose declarations are all satisfied changes nothing and succeeds. -/
theorem runDb_noop (ss : List Stmt) (d : Database) (h : ∀ st ∈ ss, st.satisfied d) :
    runDb ss d = (d, none) := by
  induction ss with
  | nil => rfl
  | cons s rest ih =>
    have h1 := dbStep_noop s d (h s (List.mem_cons_self _ _))
    rw [runDb_cons_ok s rest d (by rw [h1]), h1]
    exact ih (fun st hm => h st (List.mem_cons_of_mem _ hm))

/-- Declarations run a second time, on the database the first run left,
change nothing and end as the first run ended. -/
theorem runDb_rerun (ss : List Stmt) (hdecl : ∀ st ∈ ss, st.isDecl = true) (d : Database) :
    runDb ss (runDb ss d).1 = ((runDb ss d).1, (runDb ss d).2) := by
  induction ss generalizing d with
  | nil => rfl
  | cons s rest ih =>
    have hs := hdecl s (List.mem_cons_self _ _)
    have hsw : s.singleWrite = true := by
      cases s <;> first | rfl | simp [Stmt.isDecl] at hs
    cases hr : (dbStep s d).2 with
    | some e =>
      have hd : (dbStep s d).1 = d := dbStep_fail s d e hsw hr
      rw [runDb_cons_fail s rest d e hr, hd, runDb_cons_fail s rest d e hr, hd]
    | none =>
      rw [runDb_cons_ok s rest d hr]
      have hsat : s.satisfied (runDb rest (dbStep s d).1).1 :=
        runDb_satisfied_mono rest _ s (dbStep_satisfied s d hr hs)
      have hnoop := dbStep_noop s _ hsat
      rw [runDb_cons_ok s rest _ (by rw [hnoop]), hnoop]
      exact ih (fun st hm => hdecl st (List.mem_cons_of_mem _ hm)) _

/-- The index of a `createIndex` that ran without error is declared when the
run ends without error. -/
theorem runDb_success_index (ss : List Stmt) (d : Database) (c : String)
    (k : List (String × Int)) (u : Bool) (hm : Stmt.createIndex c k u ∈ ss)
    (hok : (runDb ss d).2 = none) : (⟨k, u⟩ : IndexSpec) ∈ ((runDb ss d).1.coll c).indexes := by
  induction ss generalizing d with
  | nil => simp at hm
  | cons s rest ih =>
    cases hs : (dbStep s d).2 with
    | some e => rw [runDb_cons_fail s rest d e hs] at hok; simp at hok
    | none =>
      rw [runDb_cons_ok s rest d hs] at hok ⊢
      rcases List.mem_cons.mp hm with h | h
      · subst h
        exact runDb_index_mono rest _ c _ (Database.createIndex_declared d c _ hs)
      · exact ih _ h hok

/-! ## From the shell to the current database -/

theorem Shell.setDatabase_self (sh : Shell) : sh.setDatabase (sh.target sh.db) = sh := by
  cases sh with
  | mk db target out =>
    simp only [Shell.setDatabase]
    congr
    funext n
    by_cases h : n = db
    · subst h; simp
    · simp [h]

/-- A statement other than `getSiblingDB` keeps `db` and acts on the target
through `dbStep` at the current database alone. -/
theorem exec_eq_dbStep (st : Stmt) (sh : Shell) (h : st.isSwitch = false) :
    (exec st sh).1.db = sh.db ∧
    (exec st sh).1.target =
      (fun n => if n = sh.db then (dbStep st (sh.target sh.db)).1 else sh.target n) ∧
    (exec st sh).2 = (dbStep st (sh.target sh.db)).2 := by
  cases st with
  | getSiblingDB n => simp [Stmt.isSwitch] at h
  | createUser u => exact ⟨rfl, rfl, rfl⟩
  | createCollection n => exact ⟨rfl, rfl, rfl⟩
  | createIndex c k u => exact ⟨rfl, rfl, rfl⟩
  | insertMany c docs => exact ⟨rfl, rfl, rfl⟩
  | print m =>
    refine ⟨rfl, ?_, rfl⟩
    funext n
    by_cases hn : n = sh.db
    · subst hn; simp [exec, dbStep]
    · simp [exec, dbStep, hn]

theorem runScript_cons_ok (st : Stmt) (rest : List Stmt) (sh : Shell)
    (h : (exec st sh).2 = none) : runScript (st :: rest) sh = runScript rest (exec st sh).1 := by
  rw [runScript]
  rcases hs : exec st sh with ⟨sh', oe⟩
  rw [hs] at h
  simp only at h
  subst h
  rfl

theorem runScript_cons_fail (st : Stmt) (rest : List Stmt) (sh : Shell) (e : MongoErr)
    (h : (exec st sh).2 = some e) : runScript (st :: rest) sh = ((exec st sh).1, some e) := by
  rw [runScript]
  rcases hs : exec st sh with ⟨sh', oe⟩
  rw [hs] at h
  simp only at h
  subst h
  rfl

theorem runScript_append_ok (a b : List Stmt) (sh : Shell) (h : (runScript a sh).2 = none) :
    runScript (a ++ b) sh = runScript b (runScript a sh).1 := by
  induction a generalizing sh with
  | nil => rfl
  | cons st rest ih =>
    cases hs : (exec st sh).2 with
    | none =>
      rw [List.cons_append, runScript_cons_ok st _ sh hs]
      rw [runScript_cons_ok st rest sh hs] at h ⊢
      exact ih _ h
    | some e =>
      rw [runScript_cons_fail st rest sh e hs] at h
      simp at h

/-- A script body without `getSiblingDB` keeps `db`, touches the current
database alone and does to it what `runDb` says. -/
theorem runScript_eq_runDb (ss : List Stmt) (sh : Shell)
    (h : ∀ st ∈ ss, st.isSwitch = false) :
    (runScript ss sh).1.db = sh.db ∧
    (runScript ss sh).1.target =
      (fun n => if n = sh.db then (runDb ss (sh.target sh.db)).1 else sh.target n) ∧
    (runScript ss sh).2 = (runDb ss (sh.target sh.db)).2 := by
  induction ss generalizing sh with
  | nil =>
    refine ⟨rfl, ?_, rfl⟩
    funext n
    by_cases hn : n = sh.db
    · subst hn; simp [runScript, runDb]
    · simp [runScript, hn]
  | cons st rest ih =>
    obtain ⟨hdb, htg, her⟩ := exec_eq_dbStep st sh (h st (List.mem_cons_self _ _))
    cases hs : (dbStep st (sh.target sh.db)).2 with
    | some e =>
      rw [runScript_cons_fail st rest sh e (her.trans hs), runDb_cons_fail st rest _ e hs]
      exact ⟨hdb, htg, rfl⟩
    | none =>
      rw [runScript_cons_ok st rest sh (her.trans hs), runDb_cons_ok st rest _ hs]
      obtain ⟨h1, h2, h3⟩ := ih (exec st sh).1 (fun s hm => h s (List.mem_cons_of_mem _ hm))
      have hcur : (exec st sh).1.target (exec st sh).1.db = (dbStep st (sh.target sh.db)).1 := by
        rw [hdb, htg]; simp
      rw [hcur] at h2 h3
      refine ⟨h1.trans hdb, ?_, h3⟩
      rw [h2, hdb, htg]
      funext n
      by_cases hn : n = sh.db <;> simp [hn]

/-! ## The two scripts as transformers of their database -/

theorem not_of_all_not (ss : List Stmt) (p : Stmt → Bool)
    (h : (ss.all fun st => !p st) = true) : ∀ st ∈ ss, p st = false := by
  intro st hm
  have := List.all_eq_true.mp h st hm
  simpa using this

/-- The pooling script touches database `pooling` alone, through `runDb`. -/
theorem PoolingService.pooling_run_eq (sh : Shell) :
    (runScript PoolingService.initMongo sh).1.target =
      (fun n => if n = "pooling" then
        (runDb PoolingService.initMongo.tail (sh.target "pooling")).1 else sh.target n) ∧
    (runScript PoolingService.initMongo sh).2 =
      (runDb PoolingService.initMongo.tail (sh.target "pooling")).2 := by
  have h := runScript_eq_runDb PoolingService.initMongo.tail { sh with db := "pooling" }
    (not_of_all_not _ _ rfl)
  exact ⟨h.2.1, h.2.2⟩

/-- The trip-planning script touches database `islandhop_trips` alone,
through `runDb`. -/
theorem TripPlanningService.trips_run_eq (now : TripPlanningService.Clock) (sh : Shell) :
    (runScript (TripPlanningService.initMongo now) sh).1.target =
      (fun n => if n = "islandhop_trips" then
        (runDb (TripPlanningService.initMongo now).tail (sh.target "islandhop_trips")).1
        else sh.target n) ∧
    (runScript (TripPlanningService.initMongo now) sh).2 =
      (runDb (TripPlanningService.initMongo now).tail (sh.target "islandhop_trips")).2 := by
  have h := runScript_eq_runDb (TripPlanningService.initMongo now).tail
    { sh with db := "islandhop_trips" } (not_of_all_not _ _ rfl)
  exact ⟨h.2.1, h.2.2⟩

/-! ## Errors leave the state alone -/

/-- A failing statement that writes at most one document changes nothing. -/
theorem exec_fail (st : Stmt) (sh : Shell) (e : MongoErr) (hs : st.singleWrite = true)
    (h : (exec st sh).2 = some e) : (exec st sh).1 = sh := by
  have key : ∀ op : Database → Database × Option MongoErr,
      (op (sh.target sh.db)).1 = sh.target sh.db → (sh.onDb op).1 = sh := by
    intro op hop
    show sh.setDatabase (op (sh.target sh.db)).1 = sh
    rw [hop, Shell.setDatabase_self]
  cases st with
  | getSiblingDB n => simp [exec] at h
  | createUser u => exact key _ (dbStep_fail (.createUser u) _ e hs h)
  | createCollection n => exact key _ (dbStep_fail (.createCollection n) _ e hs h)
  | createIndex c k u => exact key _ (dbStep_fail (.createIndex c k u) _ e hs h)
  | insertMany c docs => exact key _ (dbStep_fail (.insertMany c docs) _ e hs h)
  | print m => simp [exec] at h

theorem list_split_at (ss : List Stmt) (k : Nat) (st : Stmt) (h : ss[k]? = some st) :
    ss = ss.take k ++ st :: ss.drop (k + 1) := by
  induction ss generalizing k with
  | nil => simp at h
  | cons s rest ih =>
    cases k with
    | zero => simp at h; simp [h]
    | succ k =>
      simp only [List.getElem?_cons_succ] at h
      simp only [List.take_succ_cons, List.drop_succ_cons, List.cons_append]
      rw [← ih k h]

/-- The first failing statement ends the run in the state the statements
before it produced. -/
theorem runScript_first_error (ss : List Stmt) (hs : ∀ st ∈ ss, st.singleWrite = true)
    (sh : Shell) (k : Nat) (st : Stmt) (e : MongoErr) (hk : ss[k]? = some st)
    (hpre : (runScript (ss.take k) sh).2 = none)
    (hfail : (exec st (runScript (ss.take k) sh).1).2 = some e) :
    runScript ss sh = ((runScript (ss.take k) sh).1, some e) := by
  have hsplit := list_split_at ss k st hk
  have hm : st ∈ ss.take k ++ st :: ss.drop (k + 1) := by simp
  rw [← hsplit] at hm
  have h1 : runScript (ss.take k ++ st :: ss.drop (k + 1)) sh =
      runScript (st :: ss.drop (k + 1)) (runScript (ss.take k) sh).1 :=
    runScript_append_ok _ _ sh hpre
  rw [runScript_cons_fail st _ _ e hfail, exec_fail st _ e (hs st hm) hfail] at h1
  rw [← hsplit] at h1
  exact h1

/-! ## Unique keys -/

theorem violates_of_index (c : Collection) (key : List (String × Int)) (doc : Doc)
    (hix : (⟨key, true⟩ : IndexSpec) ∈ c.indexes)
    (hk : keyTaken key c.docs (indexKey key doc) = true) : violates c doc = true := by
  unfold violates
  exact List.any_eq_true.mpr ⟨⟨key, true⟩, hix, by simp [hk]⟩

/-- Declarations that build the unique index and never insert into `c`,
followed by the insert of one document whose key is taken: the documents of
`c` are the same after the run. -/
theorem runDb_guarded_insert (A rest : List Stmt) (c : String) (key : List (String × Int))
    (doc : Doc) (d : Database) (hA : ∀ st ∈ A, st.insertsInto c = false)
    (hidx : Stmt.createIndex c key true ∈ A)
    (hdup : keyTaken key (d.coll c).docs (indexKey key doc) = true) :
    ((runDb (A ++ .insertMany c [doc] :: rest) d).1.coll c).docs = (d.coll c).docs := by
  cases hr : (runDb A d).2 with
  | some e =>
    rw [runDb_append_fail A _ d e hr]
    exact runDb_docs A d c hA
  | none =>
    rw [runDb_append_ok A _ d hr]
    have hdocs := runDb_docs A d c hA
    have hix := runDb_success_index A d c key true hidx hr
    have hv : violates ((runDb A d).1.coll c) doc = true :=
      violates_of_index _ key doc hix (by rw [hdocs]; exact hdup)
    have hstep : dbStep (.insertMany c [doc]) (runDb A d).1 =
        ((runDb A d).1, some .duplicateKey) := Database.insertMany_rejected _ c doc hv
    rw [runDb_cons_fail _ _ _ .duplicateKey (by rw [hstep]), hstep]
    exact hdocs

/-! ## Keys of the sample data -/

theorem TripPlanningService.trip_key_taken (now : TripPlanningService.Clock) (docs : List Doc)
    (h : ∃ d ∈ docs, d.lookup "tripId" = some (.str "sample_trip_001") ∧
      d.lookup "userId" = some (.str "user@example.com")) :
    keyTaken [("tripId", 1), ("userId", 1)] docs
      (indexKey [("tripId", 1), ("userId", 1)] (sampleTrip now)) = true := by
  obtain ⟨d, hm, h1, h2⟩ := h
  refine List.any_eq_true.mpr ⟨d, hm, ?_⟩
  have hd : indexKey [("tripId", 1), ("userId", 1)] d =
      [.str "sample_trip_001", .str "user@example.com"] := by
    simp [indexKey, h1, h2]
  rw [hd]
  rfl

theorem TripPlanningService.preferences_key_taken (now : TripPlanningService.Clock)
    (docs : List Doc)
    (h : ∃ d ∈ docs, d.lookup "userId" = some (.str "user@example.com")) :
    keyTaken [("userId", 1)] docs (indexKey [("userId", 1)] (samplePreferences now)) = true := by
  obtain ⟨d, hm, h1⟩ := h
  refine List.any_eq_true.mpr ⟨d, hm, ?_⟩
  have hd : indexKey [("userId", 1)] d = [.str "user@example.com"] := by
    simp [indexKey, h1]
  rw [hd]
  rfl

/-- The statements before the insert into `trips`, that insert, the rest. -/
theorem TripPlanningService.split_at_trips (now : TripPlanningService.Clock) :
    (initMongo now).tail = (initMongo now).tail.take 15 ++
      .insertMany "trips" [sampleTrip now] :: (initMongo now).tail.drop 16 := rfl

/-- The statements before the insert into `user_preferences`, that insert,
the rest. -/
theorem TripPlanningService.split_at_preferences (now : TripPlanningService.Clock) :
    (initMongo now).tail = (initMongo now).tail.take 17 ++
      .insertMany "user_preferences" [samplePreferences now] ::
        (initMongo now).tail.drop 18 := rfl

/-- The trip-planning declarations and inserts on a database in which nothing
exists. -/
theorem TripPlanningService.fresh_db (now : TripPlanningService.Clock) :
    (runDb (initMongo now).tail Database.empty).2 = none ∧
    (runDb (initMongo now).tail Database.empty).1.users =
      (fun n => if n = "tripplanner" then some appUser else none) ∧
    (runDb (initMongo now).tail Database.empty).1.colls =
      (fun n =>
        if n = "user_preferences" then
          some ⟨[⟨[("userId", 1)], true⟩, ⟨[("similarUsers", 1)], false⟩],
            [samplePreferences now]⟩
        else if n = "trips" then
          some ⟨[ ⟨[("userId", 1)], false⟩, ⟨[("tripId", 1), ("userId", 1)], true⟩,
              ⟨[("categories", 1)], false⟩, ⟨[("pacing", 1)], false⟩,
              ⟨[("startDate", 1)], false⟩, ⟨[("status", 1)], false⟩,
              ⟨[("baseCity", 1)], false⟩ ], [sampleTrip now]⟩
        else none) := by
  refine ⟨?_, ?_, ?_⟩
  · simp [runDb, dbStep, initMongo, Database.createUser, Database.createCollection,
      Database.createIndex, Database.insertMany, Database.setColl, Database.coll,
      Database.empty, Collection.empty, distinctKeys, violates, keyTaken, appUser]
  · simp [runDb, dbStep, initMongo, Database.createUser, Database.createCollection,
      Database.createIndex, Database.insertMany, Database.setColl, Database.coll,
      Database.empty, Collection.empty, distinctKeys, violates, keyTaken, appUser]
  · funext n
    by_cases h1 : n = "user_preferences"
    · subst h1
      simp [runDb, dbStep, initMongo, Database.createUser, Database.createCollection,
        Database.createIndex, Database.insertMany, Database.setColl, Database.coll,
        Database.empty, Collection.empty, distinctKeys, violates, keyTaken, appUser]
    · by_cases h2 : n = "trips"
      · subst h2
        simp [runDb, dbStep, initMongo, Database.createUser, Database.createCollection,
          Database.createIndex, Database.insertMany, Database.setColl, Database.coll,
          Database.empty, Collection.empty, distinctKeys, violates, keyTaken, appUser]
      · simp [h1, h2, runDb, dbStep, initMongo, Database.createUser, Database.createCollection,
          Database.createIndex, Database.insertMany, Database.setColl, Database.coll,
          Database.empty, Collection.empty, distinctKeys, violates, keyTaken, appUser]

/-- The trip-planning script from an empty target: outcome and the resulting
database `islandhop_trips`. -/
theorem TripPlanningService.fresh_run (db0 : String) (out0 : List String)
    (now : TripPlanningService.Clock) :
    (runScript (initMongo now) ⟨db0, Target.empty, out0⟩).2 = none ∧
    (runScript (initMongo now) ⟨db0, Target.empty, out0⟩).1.target "islandhop_trips" =
      (runDb (initMongo now).tail Database.empty).1 := by
  obtain ⟨ht, he⟩ := TripPlanningService.trips_run_eq now ⟨db0, Target.empty, out0⟩
  refine ⟨he.trans (TripPlanningService.fresh_db now).1, ?_⟩
  rw [ht]
  rfl

/-- When `tripplanner` exists, the script stops at `createUser`: nothing is
printed, nothing in the target changes. -/
theorem TripPlanningService.run_existing_user (now : TripPlanningService.Clock) (sh : Shell)
    (u : User) (h : (sh.target "islandhop_trips").users "tripplanner" = some u) :
    runScript (initMongo now) sh = ({ sh with db := "islandhop_trips" }, some .userExists) := by
  have hfail : (exec (.createUser appUser) { sh with db := "islandhop_trips" }).2 =
      some .userExists := by
    show ((sh.target "islandhop_trips").createUser appUser).2 = some .userExists
    simp [Database.createUser, appUser, h]
  have h0 : runScript (initMongo now) sh =
      runScript (initMongo now).tail { sh with db := "islandhop_trips" } := rfl
  have h1 : (initMongo now).tail = .createUser appUser :: (initMongo now).tail.tail := rfl
  rw [h0, h1, runScript_cons_fail _ _ _ _ hfail, exec_fail (.createUser appUser) _ _ rfl hfail]

/-! ## The claims -/

open TripPlanningService

/-- C1. From an empty target, running the trip-planning script a second time
leaves the target exactly as the first run left it: the same collections,
indexes, documents and users. The first run succeeds; the second stops at
`createUser`, because the user exists, before any declaration or insert. -/
theorem trips_twice_same_as_once (db0 db1 : String) (out0 out1 : List String)
    (now later : Clock) :
    (runScript (initMongo now) ⟨db0, Target.empty, out0⟩).2 = none ∧
    (runScript (initMongo later)
        ⟨db1, (runScript (initMongo now) ⟨db0, Target.empty, out0⟩).1.target, out1⟩).1.target =
      (runScript (initMongo now) ⟨db0, Target.empty, out0⟩).1.target ∧
    (runScript (initMongo later)
        ⟨db1, (runScript (initMongo now) ⟨db0, Target.empty, out0⟩).1.target, out1⟩).2 =
      some .userExists := by
  obtain ⟨hok, hdb⟩ := TripPlanningService.fresh_run db0 out0 now
  have hu : ((runScript (initMongo now) ⟨db0, Target.empty, out0⟩).1.target
      "islandhop_trips").users "tripplanner" = some appUser := by
    rw [hdb, (TripPlanningService.fresh_db now).2.1]
    simp
  refine ⟨hok, ?_⟩
  generalize (runScript (initMongo now) ⟨db0, Target.empty, out0⟩).1.target = t at hu ⊢
  rw [TripPlanningService.run_existing_user later ⟨db1, t, out1⟩ appUser hu]
  exact ⟨rfl, rfl⟩

/-- C2, as stated, fails: `trips` holds one document of another trip; the
script runs to its end and `trips` holds two documents afterwards. -/
theorem seed_insert_not_guarded_by_emptiness :
    ((targetWithOtherTrip "islandhop_trips").coll "trips").docs.length = 1 ∧
    (runScript (initMongo epoch) ⟨"test", targetWithOtherTrip, []⟩).2 = none ∧
    (((runScript (initMongo epoch) ⟨"test", targetWithOtherTrip, []⟩).1.target
        "islandhop_trips").coll "trips").docs.length = 2 := by
  decide

/-- C2, amended. What guards the seed insert is the unique index, not
emptiness: when `trips` already holds a document with the tripId and userId
of the sample trip, the run leaves the documents of `trips` as they were, and
when `user_preferences` already holds a document with the userId of the
sample record, the run leaves the documents of `user_preferences` as they
were. -/
theorem seed_insert_guarded_by_unique_key (sh : Shell) (now : Clock) :
    ((∃ d ∈ ((sh.target "islandhop_trips").coll "trips").docs,
        d.lookup "tripId" = some (.str "sample_trip_001") ∧
        d.lookup "userId" = some (.str "user@example.com")) →
      (((runScript (initMongo now) sh).1.target "islandhop_trips").coll "trips").docs =
        ((sh.target "islandhop_trips").coll "trips").docs) ∧
    ((∃ d ∈ ((sh.target "islandhop_trips").coll "user_preferences").docs,
        d.lookup "userId" = some (.str "user@example.com")) →
      (((runScript (initMongo now) sh).1.target "islandhop_trips").coll
          "user_preferences").docs =
        ((sh.target "islandhop_trips").coll "user_preferences").docs) := by
  have ht : (runScript (initMongo now) sh).1.target "islandhop_trips" =
      (runDb (initMongo now).tail (sh.target "islandhop_trips")).1 := by
    rw [(TripPlanningService.trips_run_eq now sh).1]
    simp
  rw [ht]
  constructor
  · intro h
    rw [TripPlanningService.split_at_trips now]
    exact runDb_guarded_insert _ _ "trips" [("tripId", 1), ("userId", 1)] _ _
      (not_of_all_not _ _ rfl) (by simp [initMongo])
      (TripPlanningService.trip_key_taken now _ h)
  · intro h
    rw [TripPlanningService.split_at_preferences now]
    exact runDb_guarded_insert _ _ "user_preferences" [("userId", 1)] _ _
      (not_of_all_not _ _ rfl) (by simp [initMongo])
      (TripPlanningService.preferences_key_taken now _ h)

/-- C2, amended, at a target whose collections hold the sample keys. -/
theorem seed_insert_guarded_by_unique_key_witness :
    (((runScript (initMongo epoch) ⟨"test", targetWithSampleKeys, []⟩).1.target
        "islandhop_trips").coll "trips").docs =
      ((targetWithSampleKeys "islandhop_trips").coll "trips").docs ∧
    (((runScript (initMongo epoch) ⟨"test", targetWithSampleKeys, []⟩).1.target
        "islandhop_trips").coll "user_preferences").docs =
      ((targetWithSampleKeys "islandhop_trips").coll "user_preferences").docs :=
  ⟨(seed_insert_guarded_by_unique_key ⟨"test", targetWithSampleKeys, []⟩ epoch).1
      ⟨[("tripId", .str "sample_trip_001"), ("userId", .str "user@example.com")],
        List.mem_singleton.mpr rfl, rfl, rfl⟩,
    (seed_insert_guarded_by_unique_key ⟨"test", targetWithSampleKeys, []⟩ epoch).2
      ⟨[("userId", .str "user@example.com")], List.mem_singleton.mpr rfl, rfl⟩⟩

/-- C3. Running the trip-planning script on an empty target succeeds; then
`islandhop_trips` has exactly the collections `trips` and `user_preferences`,
`trips` holds exactly the sample trip, whose tripId is "sample_trip_001", and
`user_preferences` holds exactly the sample record, whose userId is
"user@example.com". -/
theorem trips_fresh_apply (db0 : String) (out0 : List String) (now : Clock) :
    (runScript (initMongo now) ⟨db0, Target.empty, out0⟩).2 = none ∧
    (∀ n, (((runScript (initMongo now) ⟨db0, Target.empty, out0⟩).1.target
        "islandhop_trips").colls n).isSome = true ↔ n = "trips" ∨ n = "user_preferences") ∧
    (((runScript (initMongo now) ⟨db0, Target.empty, out0⟩).1.target
        "islandhop_trips").coll "trips").docs = [sampleTrip now] ∧
    (sampleTrip now).lookup "tripId" = some (.str "sample_trip_001") ∧
    (((runScript (initMongo now) ⟨db0, Target.empty, out0⟩).1.target
        "islandhop_trips").coll "user_preferences").docs = [samplePreferences now] ∧
    (samplePreferences now).lookup "userId" = some (.str "user@example.com") := by
  obtain ⟨hok, hdb⟩ := TripPlanningService.fresh_run db0 out0 now
  have hc := (TripPlanningService.fresh_db now).2.2
  rw [hdb]
  refine ⟨hok, ?_, ?_, rfl, ?_, rfl⟩
  · intro n
    rw [hc]
    by_cases h1 : n = "user_preferences"
    · simp [h1]
    · by_cases h2 : n = "trips"
      · simp [h2]
      · simp [h1, h2]
  · simp [Database.coll, hc]
  · simp [Database.coll, hc]

/-- C4. After the trip-planning script ran on an empty target, the declared
indexes of `trips` are exactly userId, unique (tripId, userId) in that order,
categories, pacing, startDate, status, baseCity, all ascending, and those of
`user_preferences` exactly unique userId and similarUsers; the unique ones
are (tripId, userId) on `trips` and userId on `user_preferences` only. -/
theorem trips_index_signatures (db0 : String) (out0 : List String) (now : Clock) :
    (((runScript (initMongo now) ⟨db0, Target.empty, out0⟩).1.target
        "islandhop_trips").coll "trips").indexes =
      [ ⟨[("userId", 1)], false⟩, ⟨[("tripId", 1), ("userId", 1)], true⟩,
        ⟨[("categories", 1)], false⟩, ⟨[("pacing", 1)], false⟩, ⟨[("startDate", 1)], false⟩,
        ⟨[("status", 1)], false⟩, ⟨[("baseCity", 1)], false⟩ ] ∧
    (((runScript (initMongo now) ⟨db0, Target.empty, out0⟩).1.target
        "islandhop_trips").coll "user_preferences").indexes =
      [⟨[("userId", 1)], true⟩, ⟨[("similarUsers", 1)], false⟩] ∧
    ((((runScript (initMongo now) ⟨db0, Target.empty, out0⟩).1.target
        "islandhop_trips").coll "trips").indexes.filter fun ix => ix.unique) =
      [⟨[("tripId", 1), ("userId", 1)], true⟩] ∧
    ((((runScript (initMongo now) ⟨db0, Target.empty, out0⟩).1.target
        "islandhop_trips").coll "user_preferences").indexes.filter fun ix => ix.unique) =
      [⟨[("userId", 1)], true⟩] := by
  obtain ⟨_, hdb⟩ := TripPlanningService.fresh_run db0 out0 now
  have hc := (TripPlanningService.fresh_db now).2.2
  rw [hdb]
  have h1 : ((runDb (initMongo now).tail Database.empty).1.coll "trips").indexes =
      [ ⟨[("userId", 1)], false⟩, ⟨[("tripId", 1), ("userId", 1)], true⟩,
        ⟨[("categories", 1)], false⟩, ⟨[("pacing", 1)], false⟩, ⟨[("startDate", 1)], false⟩,
        ⟨[("status", 1)], false⟩, ⟨[("baseCity", 1)], false⟩ ] := by
    simp [Database.coll, hc]
  have h2 : ((runDb (initMongo now).tail Database.empty).1.coll "user_preferences").indexes =
      [⟨[("userId", 1)], true⟩, ⟨[("similarUsers", 1)], false⟩] := by
    simp [Database.coll, hc]
  rw [h1, h2]
  exact ⟨rfl, rfl, by decide, by decide⟩

/-- C5. Applying the pooling script to an empty target succeeds and leaves,
in database `pooling`, exactly the collection `tripPools` with exactly the
eight declared indexes (seven single-field ones and the compound one in the
order baseCity, startDate, endDate, status, public), every one ascending and
none unique; `tripPools` holds no document and no database has a user. -/
theorem pooling_fresh_apply (db0 : String) (out0 : List String) :
    (runScript PoolingService.initMongo ⟨db0, Target.empty, out0⟩).2 = none ∧
    (∀ n, (((runScript PoolingService.initMongo ⟨db0, Target.empty, out0⟩).1.target
        "pooling").colls n).isSome = true ↔ n = "tripPools") ∧
    (((runScript PoolingService.initMongo ⟨db0, Target.empty, out0⟩).1.target
        "pooling").coll "tripPools").indexes =
      [ ⟨[("createdAt", 1)], false⟩, ⟨[("status", 1)], false⟩, ⟨[("public", 1)], false⟩,
        ⟨[("baseCity", 1)], false⟩, ⟨[("startDate", 1)], false⟩, ⟨[("endDate", 1)], false⟩,
        ⟨[("members.userId", 1)], false⟩,
        ⟨[("baseCity", 1), ("startDate", 1), ("endDate", 1), ("status", 1), ("public", 1)],
          false⟩ ] ∧
    ((((runScript PoolingService.initMongo ⟨db0, Target.empty, out0⟩).1.target
        "pooling").coll "tripPools").indexes.all
      fun ix => !ix.unique && ix.key.all fun f => f.2 == 1) = true ∧
    (((runScript PoolingService.initMongo ⟨db0, Target.empty, out0⟩).1.target
        "pooling").coll "tripPools").docs = [] ∧
    (∀ dbn u, ((runScript PoolingService.initMongo ⟨db0, Target.empty, out0⟩).1.target
        dbn).users u = none) := by
  obtain ⟨ht, he⟩ := PoolingService.pooling_run_eq ⟨db0, Target.empty, out0⟩
  have hp : (runScript PoolingService.initMongo ⟨db0, Target.empty, out0⟩).1.target "pooling" =
      (runDb PoolingService.initMongo.tail Database.empty).1 := by rw [ht]; rfl
  have he' : (runScript PoolingService.initMongo ⟨db0, Target.empty, out0⟩).2 =
      (runDb PoolingService.initMongo.tail Database.empty).2 := he
  rw [hp, he']
  refine ⟨by decide, ?_, by decide, by decide, by rfl, ?_⟩
  · intro n
    by_cases hn : n = "tripPools"
    · subst hn; simp; rfl
    · simp [hn, runDb, dbStep, PoolingService.initMongo, Database.createCollection,
        Database.createIndex, Database.setColl, Database.coll, Database.empty,
        Collection.empty, distinctKeys]
  · intro dbn u
    by_cases hd : dbn = "pooling"
    · subst hd
      rw [hp, runDb_users _ _ (not_of_all_not _ _ (by rfl))]
      rfl
    · rw [ht]
      simp [hd, Target.empty, Database.empty]

/-- C6, as stated, fails: `tripplanner` exists on `islandhop_trips`; the
script ends with the user-exists error of `createUser` and no collection has
been created. -/
theorem existing_user_stops_the_script :
    (targetWithUser "islandhop_trips").users "tripplanner" =
      some ⟨"tripplanner", "rotated-secret", []⟩ ∧
    (runScript (initMongo epoch) ⟨"test", targetWithUser, []⟩).2 = some .userExists ∧
    (((runScript (initMongo epoch) ⟨"test", targetWithUser, []⟩).1.target
        "islandhop_trips").colls "trips").isSome = false ∧
    (((runScript (initMongo epoch) ⟨"test", targetWithUser, []⟩).1.target
        "islandhop_trips").colls "user_preferences").isSome = false := by
  decide

/-- C6, amended. When `tripplanner` already exists on `islandhop_trips`, with
any credential and roles, the script ends at `createUser` with the
user-exists error and the whole target, that user included, is as before:
no later step is carried out. When the user does not exist, the run leaves
it created with the one grant readWrite on `islandhop_trips`. -/
theorem existing_user_untouched_and_script_stops (sh : Shell) (now : Clock) :
    (∀ u, (sh.target "islandhop_trips").users "tripplanner" = some u →
      (runScript (initMongo now) sh).2 = some .userExists ∧
      (runScript (initMongo now) sh).1.target = sh.target ∧
      (runScript (initMongo now) sh).1.out = sh.out) ∧
    ((sh.target "islandhop_trips").users "tripplanner" = none →
      ((runScript (initMongo now) sh).1.target "islandhop_trips").users "tripplanner" =
        some appUser ∧
      appUser.roles = [⟨"readWrite", "islandhop_trips"⟩]) := by
  constructor
  · intro u hu
    rw [TripPlanningService.run_existing_user now sh u hu]
    exact ⟨rfl, rfl, rfl⟩
  · intro hu
    refine ⟨?_, rfl⟩
    have ht : (runScript (initMongo now) sh).1.target "islandhop_trips" =
        (runDb (initMongo now).tail (sh.target "islandhop_trips")).1 := by
      rw [(TripPlanningService.trips_run_eq now sh).1]
      simp
    have hstep : dbStep (.createUser appUser) (sh.target "islandhop_trips") =
        ({ sh.target "islandhop_trips" with
            users := fun n => if n = "tripplanner" then some appUser
              else (sh.target "islandhop_trips").users n }, none) := by
      show (sh.target "islandhop_trips").createUser appUser = _
      simp [Database.createUser, appUser, hu]
    have hsplit : (initMongo now).tail = .createUser appUser :: (initMongo now).tail.tail := rfl
    rw [ht, hsplit, runDb_cons_ok _ _ _ (by rw [hstep]), hstep,
      runDb_users (initMongo now).tail.tail _ (not_of_all_not _ _ rfl)]
    simp

/-- C6, amended, at a target where the user exists and at the empty target. -/
theorem existing_user_untouched_and_script_stops_witness :
    ((runScript (initMongo epoch) ⟨"test", targetWithUser, []⟩).2 = some .userExists ∧
      (runScript (initMongo epoch) ⟨"test", targetWithUser, []⟩).1.target = targetWithUser ∧
      (runScript (initMongo epoch) ⟨"test", targetWithUser, []⟩).1.out = []) ∧
    (((runScript (initMongo epoch) ⟨"test", Target.empty, []⟩).1.target
        "islandhop_trips").users "tripplanner" = some appUser ∧
      appUser.roles = [⟨"readWrite", "islandhop_trips"⟩]) :=
  ⟨(existing_user_untouched_and_script_stops ⟨"test", targetWithUser, []⟩ epoch).1
      ⟨"tripplanner", "rotated-secret", []⟩ rfl,
    (existing_user_untouched_and_script_stops ⟨"test", Target.empty, []⟩ epoch).2 rfl⟩

/-- C7. The script inserts the sample trip at statement 16 and the sample
preferences at statement 18. With `db` on `islandhop_trips`: when `trips` has
the unique (tripId, userId) index and holds a document with tripId
"sample_trip_001" and userId "user@example.com", the insert of the sample
trip raises the duplicate-key error (the `ValidationError` of the
specification) and the state is the same after it as before; likewise for
`user_preferences` with its unique userId index and a document with userId
"user@example.com". -/
theorem duplicate_seed_insert_rejected (sh : Shell) (now : Clock)
    (hdb : sh.db = "islandhop_trips") :
    (initMongo now)[16]? = some (.insertMany "trips" [sampleTrip now]) ∧
    (initMongo now)[18]? = some (.insertMany "user_preferences" [samplePreferences now]) ∧
    ((⟨[("tripId", 1), ("userId", 1)], true⟩ : IndexSpec) ∈
        ((sh.target "islandhop_trips").coll "trips").indexes →
      (∃ d ∈ ((sh.target "islandhop_trips").coll "trips").docs,
        d.lookup "tripId" = some (.str "sample_trip_001") ∧
        d.lookup "userId" = some (.str "user@example.com")) →
      exec (.insertMany "trips" [sampleTrip now]) sh = (sh, some .duplicateKey)) ∧
    ((⟨[("userId", 1)], true⟩ : IndexSpec) ∈
        ((sh.target "islandhop_trips").coll "user_preferences").indexes →
      (∃ d ∈ ((sh.target "islandhop_trips").coll "user_preferences").docs,
        d.lookup "userId" = some (.str "user@example.com")) →
      exec (.insertMany "user_preferences" [samplePreferences now]) sh =
        (sh, some .duplicateKey)) := by
  have key : ∀ (c : String) (doc : Doc),
      violates ((sh.target "islandhop_trips").coll c) doc = true →
      exec (.insertMany c [doc]) sh = (sh, some .duplicateKey) := by
    intro c doc hv
    have hstep : (sh.target sh.db).insertMany c [doc] = (sh.target sh.db, some .duplicateKey) :=
      Database.insertMany_rejected _ c doc (by rw [hdb]; exact hv)
    show (sh.setDatabase ((sh.target sh.db).insertMany c [doc]).1,
      ((sh.target sh.db).insertMany c [doc]).2) = _
    rw [hstep, Shell.setDatabase_self]
  refine ⟨rfl, rfl, ?_, ?_⟩
  · intro hix hd
    exact key _ _ (violates_of_index _ _ _ hix (TripPlanningService.trip_key_taken now _ hd))
  · intro hix hd
    exact key _ _
      (violates_of_index _ _ _ hix (TripPlanningService.preferences_key_taken now _ hd))

/-- C7 at a session on a target whose collections hold the sample keys. -/
theorem duplicate_seed_insert_rejected_witness :
    exec (.insertMany "trips" [sampleTrip epoch]) ⟨"islandhop_trips", targetWithSampleKeys, []⟩ =
      (⟨"islandhop_trips", targetWithSampleKeys, []⟩, some .duplicateKey) ∧
    exec (.insertMany "user_preferences" [samplePreferences epoch])
        ⟨"islandhop_trips", targetWithSampleKeys, []⟩ =
      (⟨"islandhop_trips", targetWithSampleKeys, []⟩, some .duplicateKey) :=
  ⟨(duplicate_seed_insert_rejected ⟨"islandhop_trips", targetWithSampleKeys, []⟩ epoch
        rfl).2.2.1 (List.mem_singleton.mpr rfl)
      ⟨[("tripId", .str "sample_trip_001"), ("userId", .str "user@example.com")],
        List.mem_singleton.mpr rfl, rfl, rfl⟩,
    (duplicate_seed_insert_rejected ⟨"islandhop_trips", targetWithSampleKeys, []⟩ epoch
        rfl).2.2.2 (List.mem_singleton.mpr rfl)
      ⟨[("userId", .str "user@example.com")], List.mem_singleton.mpr rfl, rfl⟩⟩

/-- C8. For either script, read as its list of statements: when the
statements before position `k` run without error and statement `k` fails,
the run ends with that error in exactly the state the first `k` statements
produced; what they did stays and no later statement runs. -/
theorem first_error_halts_without_rollback (ss : List Stmt)
    (hss : ss = PoolingService.initMongo ∨ ∃ now, ss = TripPlanningService.initMongo now)
    (sh : Shell) (k : Nat) (st : Stmt) (e : MongoErr) (hk : ss[k]? = some st)
    (hpre : (runScript (ss.take k) sh).2 = none)
    (hfail : (exec st (runScript (ss.take k) sh).1).2 = some e) :
    runScript ss sh = ((runScript (ss.take k) sh).1, some e) := by
  have hs : ∀ s ∈ ss, s.singleWrite = true := by
    rcases hss with h | ⟨now, h⟩
    · subst h; exact List.all_eq_true.mp rfl
    · subst h; exact List.all_eq_true.mp rfl
  exact runScript_first_error ss hs sh k st e hk hpre hfail

/-- C8 at the trip-planning script on a target where `tripplanner` exists:
statement 1, the `createUser`, is the first to fail. -/
theorem first_error_halts_without_rollback_witness :
    (initMongo epoch)[1]? = some (.createUser appUser) ∧
    (runScript ((initMongo epoch).take 1) ⟨"test", targetWithUser, []⟩).2 = none ∧
    (exec (.createUser appUser)
      (runScript ((initMongo epoch).take 1) ⟨"test", targetWithUser, []⟩).1).2 =
      some .userExists ∧
    runScript (initMongo epoch) ⟨"test", targetWithUser, []⟩ =
      ((runScript ((initMongo epoch).take 1) ⟨"test", targetWithUser, []⟩).1,
        some .userExists) :=
  ⟨rfl, rfl, rfl,
    first_error_halts_without_rollback (initMongo epoch) (Or.inr ⟨epoch, rfl⟩)
      ⟨"test", targetWithUser, []⟩ 1 (.createUser appUser) .userExists rfl rfl rfl⟩

/-- C9. Running the pooling script again, from any session, on the target a
first run left changes nothing in the target and ends as the first run
ended; so after a run that completed the second run succeeds and is a no-op:
each `createCollection` finds its collection, each `createIndex` an index
of identical signature. -/
theorem pooling_rerun_is_noop (sh : Shell) (db1 : String) (out1 : List String) :
    (runScript PoolingService.initMongo
        ⟨db1, (runScript PoolingService.initMongo sh).1.target, out1⟩).1.target =
      (runScript PoolingService.initMongo sh).1.target ∧
    (runScript PoolingService.initMongo
        ⟨db1, (runScript PoolingService.initMongo sh).1.target, out1⟩).2 =
      (runScript PoolingService.initMongo sh).2 ∧
    ((runScript PoolingService.initMongo sh).2 = none →
      (runScript PoolingService.initMongo
        ⟨db1, (runScript PoolingService.initMongo sh).1.target, out1⟩).2 = none) := by
  obtain ⟨ht, he⟩ := PoolingService.pooling_run_eq sh
  have hre := runDb_rerun PoolingService.initMongo.tail (List.all_eq_true.mp rfl)
    (sh.target "pooling")
  rw [he]
  generalize (runScript PoolingService.initMongo sh).1.target = t at ht ⊢
  obtain ⟨ht2, he2⟩ := PoolingService.pooling_run_eq ⟨db1, t, out1⟩
  have hcur : (⟨db1, t, out1⟩ : Shell).target "pooling" =
      (runDb PoolingService.initMongo.tail (sh.target "pooling")).1 := by
    show t "pooling" = _
    rw [ht]
    simp
  rw [he2, ht2, hcur, hre]
  refine ⟨?_, rfl, fun h => h⟩
  funext n
  by_cases hn : n = "pooling"
  · subst hn
    simp only [if_true]
    exact hcur.symm
  · simp [hn]

/-- C9 at the empty target. -/
theorem pooling_rerun_is_noop_witness :
    (runScript PoolingService.initMongo ⟨"test", Target.empty, []⟩).2 = none ∧
    (runScript PoolingService.initMongo
        ⟨"test", (runScript PoolingService.initMongo ⟨"test", Target.empty, []⟩).1.target,
          []⟩).2 = none :=
  ⟨by decide, (pooling_rerun_is_noop ⟨"test", Target.empty, []⟩ "test" []).2.2 (by decide)⟩

/-- C10. The pooling script reads and writes database `pooling` alone and
the trip-planning script, its `createUser` included, database
`islandhop_trips` alone: each leaves every other database as it was, what
each does to its own database and whether it fails depend on that database
only. Run one after the other, in either order, each script does to its own
database what it does when run alone and has the outcome it has when run
alone; so for the same clock readings both orders end in the same target. -/
theorem scripts_are_independent (sh : Shell) (now : Clock) :
    (∀ n, n ≠ "pooling" → (runScript PoolingService.initMongo sh).1.target n = sh.target n) ∧
    (∀ n, n ≠ "islandhop_trips" → (runScript (initMongo now) sh).1.target n = sh.target n) ∧
    (∀ sh' : Shell, sh'.target "pooling" = sh.target "pooling" →
      (runScript PoolingService.initMongo sh').1.target "pooling" =
        (runScript PoolingService.initMongo sh).1.target "pooling" ∧
      (runScript PoolingService.initMongo sh').2 = (runScript PoolingService.initMongo sh).2) ∧
    (∀ sh' : Shell, sh'.target "islandhop_trips" = sh.target "islandhop_trips" →
      (runScript (initMongo now) sh').1.target "islandhop_trips" =
        (runScript (initMongo now) sh).1.target "islandhop_trips" ∧
      (runScript (initMongo now) sh').2 = (runScript (initMongo now) sh).2) ∧
    (runScript (initMongo now) (runScript PoolingService.initMongo sh).1).1.target =
      (fun n => if n = "pooling" then (runScript PoolingService.initMongo sh).1.target "pooling"
        else (runScript (initMongo now) sh).1.target n) ∧
    (runScript PoolingService.initMongo (runScript (initMongo now) sh).1).1.target =
      (fun n => if n = "pooling" then (runScript PoolingService.initMongo sh).1.target "pooling"
        else (runScript (initMongo now) sh).1.target n) ∧
    (runScript (initMongo now) (runScript PoolingService.initMongo sh).1).1.target =
      (runScript PoolingService.initMongo (runScript (initMongo now) sh).1).1.target ∧
    (runScript (initMongo now) (runScript PoolingService.initMongo sh).1).2 =
      (runScript (initMongo now) sh).2 ∧
    (runScript PoolingService.initMongo (runScript (initMongo now) sh).1).2 =
      (runScript PoolingService.initMongo sh).2 := by
  have hP := fun s => PoolingService.pooling_run_eq s
  have hT := fun s => TripPlanningService.trips_run_eq now s
  have hne : ("islandhop_trips" : String) ≠ "pooling" := by decide
  have hPT : (runScript PoolingService.initMongo sh).1.target "islandhop_trips" =
      sh.target "islandhop_trips" := by
    rw [(hP sh).1]; simp
  have hTP : (runScript (initMongo now) sh).1.target "pooling" = sh.target "pooling" := by
    rw [(hT sh).1]; simp
  have hA : (runScript (initMongo now) (runScript PoolingService.initMongo sh).1).1.target =
      (fun n => if n = "pooling" then (runScript PoolingService.initMongo sh).1.target "pooling"
        else (runScript (initMongo now) sh).1.target n) := by
    rw [(hT _).1, hPT, (hP sh).1, (hT sh).1]
    funext n
    by_cases h1 : n = "islandhop_trips"
    · subst h1; simp
    · by_cases h2 : n = "pooling"
      · subst h2; simp
      · simp [h1, h2]
  have hB : (runScript PoolingService.initMongo (runScript (initMongo now) sh).1).1.target =
      (fun n => if n = "pooling" then (runScript PoolingService.initMongo sh).1.target "pooling"
        else (runScript (initMongo now) sh).1.target n) := by
    rw [(hP (runScript (initMongo now) sh).1).1, hTP, (hP sh).1, (hT sh).1]
    funext n
    by_cases h2 : n = "pooling"
    · subst h2; simp
    · simp [h2]
  refine ⟨?_, ?_, ?_, ?_, hA, hB, hA.trans hB.symm, ?_, ?_⟩
  · intro n hn
    rw [(hP sh).1]; simp [hn]
  · intro n hn
    rw [(hT sh).1]; simp [hn]
  · intro sh' h
    rw [(hP sh').1, (hP sh').2, (hP sh).1, (hP sh).2, h]
    simp
  · intro sh' h
    rw [(hT sh').1, (hT sh').2, (hT sh).1, (hT sh).2, h]
    simp
  · rw [(hT _).2, hPT, (hT sh).2]
  · rw [(hP _).2, hTP, (hP sh).2]

/-- C10 at the empty target, read at database `islandhop_trips` after the
pooling script and at `pooling` after the trip-planning script, and read for
a second session on the same target. -/
theorem scripts_are_independent_witness :
    (runScript PoolingService.initMongo ⟨"test", Target.empty, []⟩).1.target "islandhop_trips" =
      Target.empty "islandhop_trips" ∧
    (runScript (initMongo epoch) ⟨"test", Target.empty, []⟩).1.target "pooling" =
      Target.empty "pooling" ∧
    ((runScript PoolingService.initMongo ⟨"admin", Target.empty, ["hello"]⟩).1.target "pooling" =
        (runScript PoolingService.initMongo ⟨"test", Target.empty, []⟩).1.target "pooling" ∧
      (runScript PoolingService.initMongo ⟨"admin", Target.empty, ["hello"]⟩).2 =
        (runScript PoolingService.initMongo ⟨"test", Target.empty, []⟩).2) ∧
    ((runScript (initMongo epoch) ⟨"admin", Target.empty, ["hello"]⟩).1.target
          "islandhop_trips" =
        (runScript (initMongo epoch) ⟨"test", Target.empty, []⟩).1.target "islandhop_trips" ∧
      (runScript (initMongo epoch) ⟨"admin", Target.empty, ["hello"]⟩).2 =
        (runScript (initMongo epoch) ⟨"test", Target.empty, []⟩).2) :=
  ⟨(scripts_are_independent ⟨"test", Target.empty, []⟩ epoch).1 "islandhop_trips" (by decide),
    (scripts_are_independent ⟨"test", Target.empty, []⟩ epoch).2.1 "pooling" (by decide),
    (scripts_are_independent ⟨"test", Target.empty, []⟩ epoch).2.2.1
      ⟨"admin", Target.empty, ["hello"]⟩ rfl,
    (scripts_are_independent ⟨"test", Target.empty, []⟩ epoch).2.2.2.1
      ⟨"admin", Target.empty, ["hello"]⟩ rfl⟩

end IslandHop
